import Mathlib

/-!
Shallow embedding of the torsocks-style LD_PRELOAD wrapper
(src/1.c, src/ConnetcInterceptionOnly.c, src/ConnectWithDNSInterception.c).

Bytes are modelled as `Nat` values; the 256-byte working buffer as a
function `Nat → Nat`; `recv` results as an integer return value plus the
bytes delivered; the C `size_t bytes_read = recv(...)` assignment as a
wrap to an unsigned 64-bit value.
-/

namespace Torsocks

/-- Linux `AF_INET`. -/
def AF_INET : Nat := 2

/-- Linux `errno` value `EFAULT`. -/
def EFAULT : Nat := 14

/-- Linux `errno` value `EAFNOSUPPORT`. -/
def EAFNOSUPPORT : Nat := 97

/-- Linux `errno` value `EHOSTUNREACH`. -/
def EHOSTUNREACH : Nat := 113

/-- `const char socks5_initial_handshake[] = {0x05, 0x01, 0x00}` (all three files). -/
def socks5_initial_handshake : List Nat := [5, 1, 0]

/-- `const char socks5_handshake_success[] = {0x05, 0x00}` (all three files). -/
def socks5_handshake_success : List Nat := [5, 0]

/-- Outcome of one `recv(fd, buf, n, 0)` call: the raw `ssize_t` return value
and the bytes the peer delivered into the buffer. -/
structure RecvEvent where
  ret : Int
  data : List Nat
deriving Repr, DecidableEq

/-- The bytes `recv` actually wrote into the buffer: none on error
(return value `< 0`), otherwise the first `ret` delivered bytes. -/
def RecvEvent.written (e : RecvEvent) : List Nat :=
  if e.ret < 0 then [] else e.data.take e.ret.toNat

/-- The C assignment `size_t bytes_read = recv(...)`: the signed return
value wraps to an unsigned 64-bit quantity (so `-1` becomes `2^64 - 1`). -/
def toSizeT (r : Int) : Nat := (r % (2 : Int) ^ 64).toNat

/-- Overwrite `data.length` bytes of buffer `buf` starting at offset `off`
(the effect of `recv`/`memcpy` writing into `char buffer[256]`). -/
def writeBytes (buf : Nat → Nat) (off : Nat) (data : List Nat) : Nat → Nat :=
  fun i => if off ≤ i ∧ i - off < data.length then data.getD (i - off) 0 else buf i

/-- All-zero initial buffer contents used as a concrete starting buffer. -/
def zbuf : Nat → Nat := fun _ => 0

/-- The external events one SOCKS negotiation can observe: whether each of
the two `send` calls fails (returns `< 0`), and the two `recv` outcomes. -/
structure NegotiationEnv where
  hsSendErr : Bool
  hsRecv : RecvEvent
  reqSendErr : Bool
  replyRecv : RecvEvent
deriving Repr, DecidableEq

/-- What a negotiation run did: the connect-request bytes it sent (if it
reached the send), the byte count it asked `recv` for when reading the
final reply (if it reached that read), and the C return value. -/
structure NegotiationOutcome where
  sentRequest : Option (List Nat)
  replyBytesRequested : Option Nat
  result : Int
deriving Repr, DecidableEq

/-- The initial-handshake step shared verbatim by `perform_socks5_negotiation`
(src/1.c lines 77-85, src/ConnetcInterceptionOnly.c lines 51-58) and
`perform_socks5_domain_negotiation` (src/ConnectWithDNSInterception.c
lines 64-71): send `socks5_initial_handshake`, `recv(sockfd, buffer, 2, 0)`,
then require `bytes_read == 2` and `memcmp(buffer, socks5_handshake_success, 2) == 0`.
Returns the success flag and the buffer after the `recv` write. -/
def socks5_handshake_step (buf0 : Nat → Nat) (sendErr : Bool) (hsRecv : RecvEvent) :
    Bool × (Nat → Nat) :=
  if sendErr then (false, buf0)
  else
    let buf1 := writeBytes buf0 0 hsRecv.written
    let bytes_read := toSizeT hsRecv.ret
    if bytes_read ≠ 2 ∨ ¬(buf1 0 = 5 ∧ buf1 1 = 0) then (false, buf1)
    else (true, buf1)

/-- `perform_socks5_negotiation` of src/1.c lines 72-112 and (identically)
src/ConnetcInterceptionOnly.c lines 46-86: handshake, IPv4-family check,
build and send the 10-byte CONNECT request
`05 01 00 01 | sin_addr (4 net-order bytes) | sin_port (2 net-order bytes)`,
then `bytes_read = recv(sockfd, buffer, 10, 0)` and
`if (bytes_read < 0 || buffer[1] != SOCKS_REPLY_SUCCESS) return -1`.
`bytes_read` is `size_t`, so the `< 0` comparison is on an unsigned value. -/
def perform_socks5_negotiation (buf0 : Nat → Nat) (env : NegotiationEnv)
    (sin_family : Nat) (sin_addr : List Nat) (sin_port : List Nat) : NegotiationOutcome :=
  let hs := socks5_handshake_step buf0 env.hsSendErr env.hsRecv
  if hs.1 = false then ⟨none, none, -1⟩
  else if sin_family ≠ AF_INET then ⟨none, none, -1⟩
  else
    let req := [5, 1, 0, 1] ++ sin_addr ++ sin_port
    let buf2 := writeBytes hs.2 0 req
    if env.reqSendErr then ⟨some req, none, -1⟩
    else
      let buf3 := writeBytes buf2 0 env.replyRecv.written
      let bytes_read := toSizeT env.replyRecv.ret
      if bytes_read < 0 ∨ buf3 1 ≠ 0 then ⟨some req, some 10, -1⟩
      else ⟨some req, some 10, 0⟩

/-- `perform_socks5_domain_negotiation` of src/ConnectWithDNSInterception.c
lines 58-105: handshake, reject `hostname_len == 0 || hostname_len > 255 - 7`,
build and send `05 01 00 03 | len | hostname bytes | htons(port)`
(`request_len = 5 + hostname_len + 2`), then the same fixed
`recv(sockfd, buffer, 10, 0)` and unsigned `bytes_read < 0` check. -/
def perform_socks5_domain_negotiation (buf0 : Nat → Nat) (env : NegotiationEnv)
    (hostname : List Nat) (port : Nat) : NegotiationOutcome :=
  let hostname_len := hostname.length
  let hs := socks5_handshake_step buf0 env.hsSendErr env.hsRecv
  if hs.1 = false then ⟨none, none, -1⟩
  else if hostname_len = 0 ∨ hostname_len > 255 - 7 then ⟨none, none, -1⟩
  else
    let net_port := [port / 256 % 256, port % 256]
    let req := [5, 1, 0, 3, hostname_len] ++ hostname ++ net_port
    let buf2 := writeBytes hs.2 0 req
    if env.reqSendErr then ⟨some req, none, -1⟩
    else
      let buf3 := writeBytes buf2 0 env.replyRecv.written
      let bytes_read := toSizeT env.replyRecv.ret
      if bytes_read < 0 ∨ buf3 1 ≠ 0 then ⟨some req, some 10, -1⟩
      else ⟨some req, some 10, 0⟩

/-- A `NegotiationEnv` in which everything goes right: both sends succeed,
the handshake reply is `05 00`, and the final reply is the 10-byte
success reply `05 00 00 01 00000000 0000`. -/
def okEnv : NegotiationEnv :=
  ⟨false, ⟨2, [5, 0]⟩, false, ⟨10, [5, 0, 0, 1, 0, 0, 0, 0, 0, 0]⟩⟩

/-- The environment one intercepted `connect` call observes: whether the
`dlsym` lookup of the real `connect` succeeded, whether `real_connect` to
the proxy `127.0.0.1:9050` fails, the return value of `real_connect` when
the call is passed through unmodified (non-IPv4 variants), the initial
contents of the negotiation buffer, and the negotiation events. -/
structure ConnectEnv where
  real_connect_ok : Bool
  proxyConnectErr : Bool
  passthroughResult : Int
  buf0 : Nat → Nat
  neg : NegotiationEnv

/-- Observable outcome of one intercepted `connect` call. `errnoSet` is the
`errno` value the wrapper itself assigns (`none` when it leaves `errno`
to the underlying call); `closedSocket` records whether `close(sockfd)`
ran; `sentRequest` is the CONNECT request the negotiation sent, if any. -/
structure ConnectOutcome where
  result : Int
  errnoSet : Option Nat
  closedSocket : Bool
  negotiationRun : Bool
  proxyConnectTried : Bool
  passedThrough : Bool
  sentRequest : Option (List Nat)
deriving Repr, DecidableEq

/-- The intercepted `connect` of src/1.c lines 116-168: fail with `EFAULT`
if the real `connect` was never found; reject non-IPv4 families with
`EAFNOSUPPORT`; connect the socket to the proxy with the real `connect`
(returning its error untouched on failure, socket left open); run
`perform_socks5_negotiation`, and on its failure `close(sockfd)`, set
`errno = EHOSTUNREACH` and return `-1`; otherwise return `0`. -/
def connect_1c (env : ConnectEnv) (sa_family : Nat)
    (sin_addr sin_port : List Nat) : ConnectOutcome :=
  if env.real_connect_ok = false then ⟨-1, some EFAULT, false, false, false, false, none⟩
  else if sa_family ≠ AF_INET then ⟨-1, some EAFNOSUPPORT, false, false, false, false, none⟩
  else if env.proxyConnectErr then ⟨-1, none, false, false, true, false, none⟩
  else
    let n := perform_socks5_negotiation env.buf0 env.neg sa_family sin_addr sin_port
    if n.result < 0 then ⟨-1, some EHOSTUNREACH, true, true, true, false, n.sentRequest⟩
    else ⟨0, none, false, true, true, false, n.sentRequest⟩

/-- The intercepted `connect` of src/ConnetcInterceptionOnly.c lines 91-131:
identical to src/1.c except that a non-IPv4 family is passed through
unmodified to the real `connect` instead of being rejected. -/
def connect_io (env : ConnectEnv) (sa_family : Nat)
    (sin_addr sin_port : List Nat) : ConnectOutcome :=
  if env.real_connect_ok = false then ⟨-1, some EFAULT, false, false, false, false, none⟩
  else if sa_family ≠ AF_INET then ⟨env.passthroughResult, none, false, false, false, true, none⟩
  else if env.proxyConnectErr then ⟨-1, none, false, false, true, false, none⟩
  else
    let n := perform_socks5_negotiation env.buf0 env.neg sa_family sin_addr sin_port
    if n.result < 0 then ⟨-1, some EHOSTUNREACH, true, true, true, false, n.sentRequest⟩
    else ⟨0, none, false, true, true, false, n.sentRequest⟩

/-- `inet_ntop(AF_INET, ...)`: the dotted-decimal string of a 4-byte
network-order IPv4 address. -/
def ipv4Dotted (a b c d : Nat) : String :=
  toString a ++ "." ++ toString b ++ "." ++ toString c ++ "." ++ toString d

/-- Dotted-decimal string of an address given as its 4 network-order bytes. -/
def ipv4DottedOfBytes (addr : List Nat) : String :=
  ipv4Dotted (addr.getD 0 0) (addr.getD 1 0) (addr.getD 2 0) (addr.getD 3 0)

/-- Byte values of an ASCII string (how the C code reads a `char *` hostname). -/
def stringBytes (s : String) : List Nat := s.data.map Char.toNat

/-- The intercepted `connect` of src/ConnectWithDNSInterception.c
lines 134-186: pass non-IPv4 through; connect to the proxy (error returned
untouched, socket left open); convert the target address to a string with
`inet_ntop` (on failure `close`, `errno = EFAULT`, `-1`); run
`perform_socks5_domain_negotiation` with that dotted-decimal string as the
hostname and `ntohs(sin_port)` as the port; on its failure `close`,
`errno = EHOSTUNREACH`, `-1`; otherwise `0`. `ntopFail` models the
(practically impossible) `inet_ntop` failure branch. -/
def connect_dns (env : ConnectEnv) (ntopFail : Bool) (sa_family : Nat)
    (sin_addr sin_port : List Nat) : ConnectOutcome :=
  if env.real_connect_ok = false then ⟨-1, some EFAULT, false, false, false, false, none⟩
  else if sa_family ≠ AF_INET then ⟨env.passthroughResult, none, false, false, false, true, none⟩
  else if env.proxyConnectErr then ⟨-1, none, false, false, true, false, none⟩
  else if ntopFail then ⟨-1, some EFAULT, true, false, true, false, none⟩
  else
    let hostname := stringBytes (ipv4DottedOfBytes sin_addr)
    let port := sin_port.getD 0 0 * 256 + sin_port.getD 1 0
    let n := perform_socks5_domain_negotiation env.buf0 env.neg hostname port
    if n.result < 0 then ⟨-1, some EHOSTUNREACH, true, true, true, false, n.sentRequest⟩
    else ⟨0, none, false, true, true, false, n.sentRequest⟩

/-- The intercepted `gethostbyname` of src/ConnectWithDNSInterception.c
lines 114-123, viewed as its effect on a hostname cache mapping resolved
addresses to name strings: the code only forwards to the real
`gethostbyname` and records nothing, so the cache is returned unchanged. -/
def gethostbyname_cache_effect (cache : List Nat → Option String)
    (_name : String) (_resolved : List Nat) : List Nat → Option String :=
  cache

/-- Modelled from the spec: the HostnameCache update the
name-resolution-interception collaborator contract requires — store the
intercepted name under the address it resolved to, so a later redirection
for that address can use the name-based request form. Missing from the
source, whose `gethostbyname` stores nothing. -/
def specHostnameCacheStore (cache : List Nat → Option String)
    (name : String) (resolved : List Nat) : List Nat → Option String :=
  fun a => if a = resolved then some name else cache a

/-- Modelled from the spec: total length of a connect-request reply as a
function of its declared bound-address type and (for the name form) the
name length — 4 fixed header bytes, then 4 bytes for IPv4, `1 + n` for a
name, 16 for IPv6, then 2 port bytes. A faithful implementation must size
its read from this, which the source's fixed 10-byte read does not. -/
def specReplyTotalLen (atyp : Nat) (nameLen : Nat) : Option Nat :=
  if atyp = 1 then some (4 + 4 + 2)
  else if atyp = 3 then some (4 + (1 + nameLen) + 2)
  else if atyp = 4 then some (4 + 16 + 2)
  else none

/-- A `ConnectEnv` in which everything goes right. -/
def okConnectEnv : ConnectEnv := ⟨true, false, 0, zbuf, okEnv⟩

/-- A `ConnectEnv` whose proxy connection attempt fails. -/
def proxyFailEnv : ConnectEnv := ⟨true, true, 0, zbuf, okEnv⟩

/-- A `ConnectEnv` whose handshake reply is `05 FF`, so the negotiation fails. -/
def hsFailEnv : ConnectEnv :=
  ⟨true, false, 0, zbuf, ⟨false, ⟨2, [5, 255]⟩, false, ⟨10, [5, 0, 0, 1, 0, 0, 0, 0, 0, 0]⟩⟩⟩

/-- The outcome of the connect-request reply check as a function of the
reply code alone: a full success run up to the final reply, whose 10 bytes
are `05 | code | 00 01 00000000 0000`. -/
def replyCodeResult (c : Nat) : Int :=
  (perform_socks5_negotiation zbuf
    ⟨false, ⟨2, [5, 0]⟩, false, ⟨10, [5, c, 0, 1, 0, 0, 0, 0, 0, 0]⟩⟩
    AF_INET [1, 2, 3, 4] [0, 80]).result

/-- C1: the code does not size the connect-reply read by the declared
bound-address type. Failing input: a reply declaring a name-form bound
address of length 11 (total length 18 per the sizing rule); the code
still issues a single fixed `recv` of 10 bytes. -/
theorem C1_fixed_reply_read_bug :
    (perform_socks5_negotiation zbuf
      ⟨false, ⟨2, [5, 0]⟩, false, ⟨10, [5, 0, 0, 3, 11, 101, 120, 97, 109, 112]⟩⟩
      AF_INET [1, 2, 3, 4] [0, 80]).replyBytesRequested = some 10 ∧
    specReplyTotalLen 3 11 = some 18 ∧ (18 : Nat) ≠ 10 := by
  decide

/-- C3: a connect-request reply read that returns only 2 bytes (`05 00`),
fewer than the 4-byte minimum fixed header, is not rejected: because
`bytes_read` is unsigned the `bytes_read < 0` check never fires, the stale
reply-code byte position now holds `00`, and the negotiation returns
success (`0`) instead of failing. -/
theorem C3_short_read_not_rejected :
    (perform_socks5_negotiation zbuf
      ⟨false, ⟨2, [5, 0]⟩, false, ⟨2, [5, 0]⟩⟩
      AF_INET [1, 2, 3, 4] [0, 80]).result = 0 := by
  decide

/-- C4 counterexample: reply codes 1 and 2 (and 9) are all mapped to the
same result `-1`, so the eight defined non-zero codes are not mapped to
distinct failure reasons and codes 9-255 get no separate classification. -/
theorem C4_counterexample :
    replyCodeResult 1 = replyCodeResult 2 ∧ replyCodeResult 1 = -1 ∧
    replyCodeResult 9 = replyCodeResult 1 := by
  decide

/-- C4 amended: reply code 0 yields success and every non-zero reply code
yields the one undifferentiated failure result `-1`. -/
theorem C4_amended_uniform_failure (c : Nat) :
    replyCodeResult c = if c = 0 then 0 else -1 := by
  by_cases hc : c = 0 <;>
    simp [replyCodeResult, perform_socks5_negotiation, socks5_handshake_step,
      writeBytes, toSizeT, RecvEvent.written, zbuf, AF_INET, hc]

set_option maxRecDepth 4000 in
/-- C2 counterexample: a hostname of length 255 — which the claim says is
accepted — is rejected by the code's `hostname_len > 255 - 7` check: no
request is sent and the negotiation fails. -/
theorem C2_counterexample :
    (perform_socks5_domain_negotiation zbuf okEnv (List.replicate 255 97) 80).result = -1 ∧
    (perform_socks5_domain_negotiation zbuf okEnv (List.replicate 255 97) 80).sentRequest =
      none := by
  decide

/-- C2 amended: with the handshake succeeding, a name of length 0 or of
length greater than 248 (`255 - 7`) is rejected with no request sent,
and every name of length 1..248 is accepted and encoded into the connect
request `05 01 00 03 | len | name | port`. -/
theorem C2_amended_name_length (h : List Nat) (port : Nat) :
    (1 ≤ h.length → h.length ≤ 248 →
      (perform_socks5_domain_negotiation zbuf okEnv h port).sentRequest =
        some ([5, 1, 0, 3, h.length] ++ h ++ [port / 256 % 256, port % 256]) ∧
      (perform_socks5_domain_negotiation zbuf okEnv h port).result = 0) ∧
    ((h.length = 0 ∨ 248 < h.length) →
      (perform_socks5_domain_negotiation zbuf okEnv h port).sentRequest = none ∧
      (perform_socks5_domain_negotiation zbuf okEnv h port).result = -1) := by
  constructor
  · intro h1 h2
    have hcond : ¬(h = [] ∨ 248 < h.length) := by
      rintro (rfl | hgt)
      · simp at h1
      · omega
    simp [perform_socks5_domain_negotiation, socks5_handshake_step, okEnv,
      writeBytes, toSizeT, RecvEvent.written, zbuf, hcond]
  · intro hr
    have hcond : h = [] ∨ 248 < h.length := by
      rcases hr with h0 | hgt
      · exact Or.inl (List.length_eq_zero.mp h0)
      · exact Or.inr hgt
    simp [perform_socks5_domain_negotiation, socks5_handshake_step, okEnv,
      writeBytes, toSizeT, RecvEvent.written, zbuf, hcond]

/-- C2 witness: the one-byte name `[97]` on port 80 is accepted and encoded. -/
theorem C2_amended_name_length_witness :
    (perform_socks5_domain_negotiation zbuf okEnv [97] 80).sentRequest =
      some [5, 1, 0, 3, 1, 97, 0, 80] ∧
    (perform_socks5_domain_negotiation zbuf okEnv [97] 80).result = 0 := by
  have h := (C2_amended_name_length [97] 80).1 (by decide) (by decide)
  simpa using h

/-- C5: after `gethostbyname("example.com")` resolves to `1.2.3.4`, the
intercepted `gethostbyname` has stored nothing (the cache is unchanged),
and `connect` to `1.2.3.4:80` sends a Name-form request carrying the
dotted-decimal string `"1.2.3.4"` derived from the literal address — not
the original name `"example.com"` that the spec's HostnameCache contract
would have supplied. -/
theorem C5_stored_name_not_used :
    gethostbyname_cache_effect (fun _ => none) "example.com" [1, 2, 3, 4] =
      (fun _ => none) ∧
    (connect_dns okConnectEnv false AF_INET [1, 2, 3, 4] [0, 80]).sentRequest =
      some ([5, 1, 0, 3, 7] ++ stringBytes "1.2.3.4" ++ [0, 80]) ∧
    specHostnameCacheStore (fun _ => none) "example.com" [1, 2, 3, 4] [1, 2, 3, 4] =
      some "example.com" ∧
    stringBytes "1.2.3.4" ≠ stringBytes "example.com" := by
  refine ⟨rfl, by decide, by simp [specHostnameCacheStore], by decide⟩

/-- C6 counterexample: when the connection to the proxy itself fails, the
attempt fails (`-1`) but the socket is not closed, so not every failing
attempt closes the transport before returning. -/
theorem C6_counterexample :
    (connect_1c proxyFailEnv AF_INET [1, 2, 3, 4] [0, 80]).result = -1 ∧
    (connect_1c proxyFailEnv AF_INET [1, 2, 3, 4] [0, 80]).closedSocket = false := by
  decide

/-- C6 amended: a failing SOCKS negotiation closes the transport before the
error is returned, but a failure of the proxy connection itself returns
the error with the socket left open (in both src/1.c and
src/ConnetcInterceptionOnly.c). -/
theorem C6_amended_close_discipline (env : ConnectEnv) (addr port : List Nat)
    (hok : env.real_connect_ok = true) :
    (env.proxyConnectErr = true →
      (connect_1c env AF_INET addr port).result = -1 ∧
      (connect_1c env AF_INET addr port).closedSocket = false ∧
      (connect_io env AF_INET addr port).result = -1 ∧
      (connect_io env AF_INET addr port).closedSocket = false) ∧
    (env.proxyConnectErr = false →
      (perform_socks5_negotiation env.buf0 env.neg AF_INET addr port).result < 0 →
      (connect_1c env AF_INET addr port).result = -1 ∧
      (connect_1c env AF_INET addr port).closedSocket = true ∧
      (connect_io env AF_INET addr port).result = -1 ∧
      (connect_io env AF_INET addr port).closedSocket = true) := by
  constructor
  · intro hpx
    simp [connect_1c, connect_io, hok, hpx]
  · intro hpx hneg
    simp [connect_1c, connect_io, hok, hpx, hneg]

/-- C6 amended witness: proxy-connect failure leaves the socket open;
a handshake failure closes it. -/
theorem C6_amended_close_discipline_witness :
    (connect_1c proxyFailEnv AF_INET [1, 2, 3, 4] [0, 80]).closedSocket = false ∧
    (connect_1c hsFailEnv AF_INET [1, 2, 3, 4] [0, 80]).closedSocket = true := by
  refine ⟨((C6_amended_close_discipline proxyFailEnv [1, 2, 3, 4] [0, 80] rfl).1 rfl).2.1,
    ((C6_amended_close_discipline hsFailEnv [1, 2, 3, 4] [0, 80] rfl).2 rfl
      (by decide)).2.1⟩

/-- C7: the handshake phase sends exactly the 3 bytes `05 01 00`, and
(given the `recv` contract: the delivered byte count equals the return
value, which lies in `[-1, 2]` for a 2-byte read) it succeeds if and only
if the send succeeded, exactly 2 bytes were read, and they are `05 00`.
All other outcomes fail. -/
theorem C7_handshake_exact (buf0 : Nat → Nat) (sendErr : Bool) (e : RecvEvent)
    (hlen : e.data.length = e.ret.toNat) (hlo : -1 ≤ e.ret) (hhi : e.ret ≤ 2) :
    socks5_initial_handshake = [5, 1, 0] ∧
    ((socks5_handshake_step buf0 sendErr e).1 = true ↔
      sendErr = false ∧ e.ret = 2 ∧ e.data = [5, 0]) := by
  refine ⟨rfl, ?_⟩
  obtain ⟨ret, data⟩ := e
  cases sendErr with
  | true => simp [socks5_handshake_step]
  | false =>
    simp only at hlen hlo hhi
    interval_cases ret
    · have h0 : data.length = 0 := hlen
      have hdata : data = [] := List.length_eq_zero.mp h0
      subst hdata
      simp [socks5_handshake_step, RecvEvent.written,
        show toSizeT (-1) ≠ 2 by decide]
    · have h0 : data.length = 0 := hlen
      have hdata : data = [] := List.length_eq_zero.mp h0
      subst hdata
      simp [socks5_handshake_step, RecvEvent.written,
        show toSizeT 0 ≠ 2 by decide]
    · rcases data with _ | ⟨a, data⟩
      · simp [socks5_handshake_step, RecvEvent.written,
          show toSizeT 1 ≠ 2 by decide]
      · simp [socks5_handshake_step, RecvEvent.written,
          show toSizeT 1 ≠ 2 by decide]
    · have h2 : data.length = 2 := hlen
      rcases data with _ | ⟨a, data⟩
      · simp at h2
      rcases data with _ | ⟨b, data⟩
      · simp at h2
      rcases data with _ | ⟨c, data⟩
      · by_cases ha : a = 5 <;> by_cases hb : b = 0 <;>
          simp [socks5_handshake_step, writeBytes, RecvEvent.written,
            show toSizeT 2 = 2 by decide, show ¬((2 : Int) < 0) by decide,
            show (2 : Int).toNat = 2 by decide, ha, hb]
      · simp at h2

/-- C7 witness: with a clean send and the exact reply `05 00` read in
full, the handshake succeeds. -/
theorem C7_handshake_exact_witness :
    (socks5_handshake_step zbuf false ⟨2, [5, 0]⟩).1 = true :=
  (C7_handshake_exact zbuf false ⟨2, [5, 0]⟩ (by decide) (by decide) (by decide)).2.mpr
    ⟨rfl, rfl, rfl⟩

/-- C8: for target `1.2.3.4:443` the encoded request is exactly
`05 01 00 01 01 02 03 04 01 BB`, and with proxy replies `05 00` and
`05 00 00 01 00000000 0000` the negotiation succeeds and the intercepted
`connect` (both src/1.c and src/ConnetcInterceptionOnly.c) returns `0`. -/
theorem C8_literal_scenario :
    (perform_socks5_negotiation zbuf okEnv AF_INET [1, 2, 3, 4] [1, 187]).sentRequest =
      some [5, 1, 0, 1, 1, 2, 3, 4, 1, 187] ∧
    (perform_socks5_negotiation zbuf okEnv AF_INET [1, 2, 3, 4] [1, 187]).result = 0 ∧
    (connect_1c okConnectEnv AF_INET [1, 2, 3, 4] [1, 187]).result = 0 ∧
    (connect_io okConnectEnv AF_INET [1, 2, 3, 4] [1, 187]).result = 0 := by
  decide

/-- C9: for a destination family other than `AF_INET` (with the real
`connect` available), none of the three intercepted `connect` variants
contacts the proxy or runs any SOCKS negotiation: src/1.c signals
`EAFNOSUPPORT` and returns `-1`, while the other two pass the call through
unmodified to the real `connect`. -/
theorem C9_non_ipv4_no_negotiation (env : ConnectEnv) (ntopFail : Bool) (fam : Nat)
    (addr port : List Nat) (hok : env.real_connect_ok = true) (hfam : fam ≠ AF_INET) :
    (connect_1c env fam addr port).proxyConnectTried = false ∧
    (connect_1c env fam addr port).negotiationRun = false ∧
    (connect_1c env fam addr port).result = -1 ∧
    (connect_1c env fam addr port).errnoSet = some EAFNOSUPPORT ∧
    (connect_io env fam addr port).proxyConnectTried = false ∧
    (connect_io env fam addr port).negotiationRun = false ∧
    (connect_io env fam addr port).passedThrough = true ∧
    (connect_dns env ntopFail fam addr port).proxyConnectTried = false ∧
    (connect_dns env ntopFail fam addr port).negotiationRun = false ∧
    (connect_dns env ntopFail fam addr port).passedThrough = true := by
  simp [connect_1c, connect_io, connect_dns, hok, hfam]

/-- C9 witness: an `AF_INET6` (family 10) destination is rejected with
`EAFNOSUPPORT` by src/1.c and passed through by the other two variants,
with no negotiation run. -/
theorem C9_non_ipv4_no_negotiation_witness :
    (connect_1c okConnectEnv 10 [0, 0, 0, 0] [0, 0]).negotiationRun = false ∧
    (connect_1c okConnectEnv 10 [0, 0, 0, 0] [0, 0]).errnoSet = some EAFNOSUPPORT ∧
    (connect_io okConnectEnv 10 [0, 0, 0, 0] [0, 0]).passedThrough = true ∧
    (connect_dns okConnectEnv false 10 [0, 0, 0, 0] [0, 0]).passedThrough = true := by
  obtain ⟨h1, h2, h3, h4, h5, h6, h7, h8, h9, h10⟩ :=
    C9_non_ipv4_no_negotiation okConnectEnv false 10 [0, 0, 0, 0] [0, 0] rfl (by decide)
  exact ⟨h2, h4, h7, h10⟩

/-- C10: once the proxy connection has succeeded, any failure of the SOCKS
negotiation — whatever its cause — makes every intercepted `connect`
variant return `-1` with `errno = EHOSTUNREACH` and the socket closed. -/
theorem C10_post_proxy_failure_uniform (env : ConnectEnv) (addr port : List Nat)
    (hok : env.real_connect_ok = true) (hpx : env.proxyConnectErr = false) :
    ((perform_socks5_negotiation env.buf0 env.neg AF_INET addr port).result < 0 →
      (connect_1c env AF_INET addr port).result = -1 ∧
      (connect_1c env AF_INET addr port).errnoSet = some EHOSTUNREACH ∧
      (connect_1c env AF_INET addr port).closedSocket = true ∧
      (connect_io env AF_INET addr port).result = -1 ∧
      (connect_io env AF_INET addr port).errnoSet = some EHOSTUNREACH ∧
      (connect_io env AF_INET addr port).closedSocket = true) ∧
    ((perform_socks5_domain_negotiation env.buf0 env.neg
        (stringBytes (ipv4DottedOfBytes addr))
        (port.getD 0 0 * 256 + port.getD 1 0)).result < 0 →
      (connect_dns env false AF_INET addr port).result = -1 ∧
      (connect_dns env false AF_INET addr port).errnoSet = some EHOSTUNREACH ∧
      (connect_dns env false AF_INET addr port).closedSocket = true) := by
  constructor
  · intro hneg
    simp [connect_1c, connect_io, hok, hpx, hneg]
  · intro hneg
    simp at hneg
    simp [connect_dns, hok, hpx, hneg]

/-- C10 witness: with the handshake reply `05 FF` the negotiation fails,
and all three `connect` variants return `EHOSTUNREACH` with the socket
closed. -/
theorem C10_post_proxy_failure_uniform_witness :
    (connect_1c hsFailEnv AF_INET [1, 2, 3, 4] [0, 80]).errnoSet = some EHOSTUNREACH ∧
    (connect_1c hsFailEnv AF_INET [1, 2, 3, 4] [0, 80]).closedSocket = true ∧
    (connect_dns hsFailEnv false AF_INET [1, 2, 3, 4] [0, 80]).errnoSet =
      some EHOSTUNREACH ∧
    (connect_dns hsFailEnv false AF_INET [1, 2, 3, 4] [0, 80]).closedSocket = true := by
  obtain ⟨ha, hb⟩ := C10_post_proxy_failure_uniform hsFailEnv [1, 2, 3, 4] [0, 80] rfl rfl
  have h1 := ha (by decide)
  have h2 := hb (by decide)
  exact ⟨h1.2.1, h1.2.2.1, h2.2.1, h2.2.2⟩

end Torsocks
